import Mathlib

/-
Verification of the NTFS reparse-point navigator (src/inlcude/Navigator.py)
against its specification.

The Python source is shallowly embedded below.  Byte buffers are `List Nat`
(each element one byte value); Python slices, `int.from_bytes`, bytearray
slice assignment and the text-mode newline translation are modelled
explicitly with the semantics Python gives them.  The only statement in the
source that can raise is `runlist[0]` on an empty buffer (an IndexError),
so `__parseRunlist` is embedded as an `Except`-valued function and every
other routine is total, exactly as in the source.
-/

set_option maxRecDepth 100000

namespace Navigator

/-- Python slice `s[a:b]` for non-negative bounds: both endpoints are
clamped to the buffer length, and `a > b` yields the empty list. -/
def pySlice (s : List Nat) (a b : Nat) : List Nat :=
  (s.take b).drop a

/-- `__unpack(data)` with the source defaults (`byteorder='little'`,
`signed=False`): `int.from_bytes(data, 'little')`.  The empty buffer
unpacks to 0, as in Python. -/
def unpack : List Nat → Nat
  | [] => 0
  | b :: rest => b + 256 * unpack rest

/-- `__unpack(data, signed=True)`: `int.from_bytes(data, 'little',
signed=True)`, two's complement over the bytes actually present.  The
empty buffer unpacks to 0 (the condition below is `1 ≤ 0` then). -/
def unpackSigned (bs : List Nat) : Int :=
  if 2 ^ (8 * bs.length - 1) ≤ unpack bs then
    (unpack bs : Int) - 2 ^ (8 * bs.length)
  else
    (unpack bs : Int)

/-- Python bytearray slice assignment `s[a:b] = v` for a step-1 slice:
negative endpoints count from the end, both are clamped to `[0, len(s)]`,
a start beyond the stop degenerates to an insertion point, and `v` may
have any length (the buffer grows or shrinks accordingly). -/
def pySliceAssign (s : List Nat) (a b : Int) (v : List Nat) : List Nat :=
  let n : Int := s.length
  let a2 : Int := if a < 0 then max (n + a) 0 else min a n
  let b2 : Int := if b < 0 then max (n + b) 0 else min b n
  let b3 : Int := max a2 b2
  s.take a2.toNat ++ v ++ s.drop b3.toNat

/-- The loop of `__applyFixup` (Navigator.py lines 63-64):
for i in range(num): `data_bytes[(512 * i) - 2 : (512 * i)] = fixup[2 * i : 2 * i + 2]`,
executed on a bytearray copy of the input. -/
def fixupLoop (fixup : List Nat) (numEntries : Nat) (dataBytes : List Nat) : List Nat :=
  (List.range numEntries).foldl
    (fun acc i =>
      let v := pySlice fixup (2 * i) (2 * i + 2)
      pySliceAssign acc (512 * (i : Int) - 2) (512 * (i : Int)) v)
    dataBytes

/-- `__applyFixup(data)` (Navigator.py lines 48-66).  It reads the fixup
offset at bytes 4-6 and the entry count at bytes 6-8, slices the fixup
array past its first (USN) entry, and runs the replacement loop on a
bytearray copy — but line 66 is `return bytes(data)`, the unmodified
argument, so the loop result `_data_bytes` is discarded and the function
returns its input.  No value is ever compared against the USN and no
length check is performed, so the function is total. -/
def applyFixup (data : List Nat) : List Nat :=
  let offset_to_fixup := unpack (pySlice data 4 6)
  let num_fixup_entries := unpack (pySlice data 6 8)
  let fixup := pySlice data (offset_to_fixup + 2) (offset_to_fixup + 2 * num_fixup_entries)
  let _data_bytes := fixupLoop fixup num_fixup_entries data
  data

/-- The one runtime error the embedded source can raise: `runlist[0]` on
an empty buffer in the loop condition of `__parseRunlist`. -/
inductive PyError where
  | indexError
deriving DecidableEq

/-- The loop of `__parseRunlist` (Navigator.py lines 78-105), with the
running `offset` accumulator threaded explicitly.  The `fuel` argument
only bounds the recursion: each iteration consumes at least one byte of
`runlist`, so with `fuel = runlist.length` (as `parseRunlist` passes) the
zero-fuel-on-nonempty branch is unreachable.  Per the source: the loop
head indexes `runlist[0]` (IndexError on an empty buffer, terminate on a
0x00 byte); the header's high nibble is the offset-field width and its
low nibble the length-field width; the length is unpacked with
`signed=True` (so a `range` over a negative length appends nothing); the
signed offset delta is accumulated; one address per length unit is
appended; and the buffer is advanced past the run's fields. -/
def parseRunlistGo : Nat → List Nat → Int → Except PyError (List Int)
  | _, [], _ => .error .indexError
  | 0, _ :: _, _ => .error .indexError
  | fuel + 1, b :: rest, offset =>
    if b = 0 then
      .ok []
    else
      let runlist := b :: rest
      let offset_length := b / 16
      let length_length := b % 16
      let length := unpackSigned (pySlice runlist 1 (length_length + 1))
      let offset2 :=
        offset + unpackSigned (pySlice runlist (length_length + 1) (length_length + 1 + offset_length))
      let run := (List.range length.toNat).map fun i => offset2 + (i : Int)
      match parseRunlistGo fuel (runlist.drop (length_length + 1 + offset_length)) offset2 with
      | .error e => .error e
      | .ok sectors => .ok (run ++ sectors)

/-- `__parseRunlist(runlist)` (Navigator.py lines 69-105). -/
def parseRunlist (runlist : List Nat) : Except PyError (List Int) :=
  parseRunlistGo runlist.length runlist 0

/-- The geometry state `__init__` stores (Navigator.py lines 26-28). -/
structure VolumeGeometry where
  bytesPerCluster : Nat
  bytesPerEntry : Nat
  mftByteOffset : Nat
deriving DecidableEq

/-- The boot-sector decoding of `__init__` (Navigator.py lines 22-28),
as a function of the bytes the 512-byte read returned: bytes_per_sector
from `boot[11:13]`, sectors_per_cluster from `boot[13:14]`,
mft_starting_cluster from `boot[48:56]`, all little-endian unsigned.  No
validation of any kind is performed; short or all-zero buffers decode to
degenerate geometry without error. -/
def parseBootSector (boot : List Nat) : VolumeGeometry :=
  let bytes_per_sector := unpack (pySlice boot 11 13)
  let sectors_per_cluster := unpack (pySlice boot 13 14)
  let mft_starting_cluster := unpack (pySlice boot 48 56)
  { bytesPerCluster := bytes_per_sector * sectors_per_cluster
    bytesPerEntry := 1024
    mftByteOffset := mft_starting_cluster * sectors_per_cluster * bytes_per_sector }

/-- The byte-level effect of `open(file_name, 'r')` at Navigator.py
line 15: the file is opened in TEXT mode, so Python's universal-newline
translation rewrites the stream before the parser sees it — each CR-LF
pair (0x0D 0x0A) and each lone CR (0x0D) becomes a single LF (0x0A).
(This models the translation for ASCII content; non-ASCII bytes would
additionally fail text decoding.)  A binary-mode open, mode `rb`, would
perform no such rewriting. -/
def textModeTranslate : List Nat → List Nat
  | [] => []
  | 13 :: 10 :: rest => 10 :: textModeTranslate rest
  | 13 :: rest => 10 :: textModeTranslate rest
  | b :: rest => b :: textModeTranslate rest

/-- `file.read(512)` after the text-mode open of line 15 (Navigator.py
lines 19-20): the first 512 units of the translated stream, not of the
raw image. -/
def readBootSector (image : List Nat) : List Nat :=
  (textModeTranslate image).take 512

/-- Concrete 1024-byte record for exercising `applyFixup`: fixup array
at offset 48 (bytes 4-5 = [48, 0]) with 3 entries (bytes 6-7 = [3, 0]);
USN = [170, 170] at 48-49, array entry 1 = [1, 2] at 50-51, entry 2 =
[3, 4] at 52-53; both protected sectors end in the USN bytes
(510-511 = [170, 170] and 1022-1023 = [170, 170]). -/
def fixupExampleRecord : List Nat :=
  (((((((((((((List.replicate 1024 0).set 4 48).set 6 3).set 48 170).set 49 170).set
    50 1).set 51 2).set 52 3).set 53 4).set 510 170).set 511 170).set 1022 170).set 1023 170)

/-- Concrete 8-byte buffer whose header declares 3 fixup entries
(bytes 6-7 = [3, 0]), far shorter than 3 × 512 bytes. -/
def shortFixupRecord : List Nat :=
  [0, 0, 0, 0, 0, 0, 3, 0]

/-- Concrete 512-byte boot sector: bytes_per_sector = 512 (bytes 11-12 =
[0, 2]), sectors_per_cluster = 8 (byte 13), mft_starting_cluster =
786432 (bytes 48-55 = [0, 0, 12, 0, 0, 0, 0, 0]). -/
def exampleBoot : List Nat :=
  (((List.replicate 512 0).set 12 2).set 13 8).set 50 12

/-- Concrete 512-byte volume image whose first two bytes are a CR-LF
pair (0x0D 0x0A), bytes a real NTFS image may well contain. -/
def crlfImage : List Nat :=
  13 :: 10 :: List.replicate 510 0

end Navigator

namespace Navigator

/-- C1: at `fixupExampleRecord` — a record whose header declares 3 fixup
entries and whose two protected sectors end in the USN bytes [170, 170] —
`applyFixup` returns the input buffer unchanged: sector 0 still ends in
the USN bytes [170, 170] rather than in fixup-array entry 1 = [1, 2], so
no sector trailer was verified or overwritten.  (Line 66 of the source
returns `bytes(data)` instead of the mutated `data_bytes`.) -/
theorem fixup_apply_returns_input_uncorrected :
    applyFixup fixupExampleRecord = fixupExampleRecord ∧
    pySlice (applyFixup fixupExampleRecord) 510 512 = [170, 170] ∧
    pySlice fixupExampleRecord 50 52 = [1, 2] ∧
    [(170 : Nat), 170] ≠ [1, 2] := by
  refine ⟨rfl, by decide, by decide, by decide⟩

/-- C2: the worked example [0x21, 0x05, 0x00, 0x10, 0x00] does decode to
[4096, 4097, 4098, 4099, 4100]; but the general round-trip fails because
the length field is unpacked with `signed=True`: the well-formed run
[0x11, 0xC8, 0x01, 0x00] (lengthFieldSize 1, length byte 0xC8 = 200,
delta 1) decodes its length as −56, so the run emits no addresses and
decoding returns the empty list instead of the 200 addresses 1..200. -/
theorem runlist_worked_example_and_signed_length_failure :
    parseRunlist [0x21, 0x05, 0x00, 0x10, 0x00] =
      Except.ok [4096, 4097, 4098, 4099, 4100] ∧
    parseRunlist [0x11, 0xC8, 0x01, 0x00] = Except.ok [] := by
  exact ⟨rfl, rfl⟩

/-- C3: the runlist [0x01, 0x03, 0x00] consists of one run whose header
byte has high nibble (offsetFieldSize) 0 and length 3; the code does not
treat it as a sparse hole: it adds a zero delta and still emits 3
addresses [0, 1, 2] at the unchanged running offset instead of emitting
nothing. -/
theorem runlist_sparse_run_emits_addresses :
    parseRunlist [0x01, 0x03, 0x00] = Except.ok [0, 1, 2] := by
  exact rfl

/-- C4: the runlist [0x10, 0x05, 0x00] has lengthFieldSize 0 (low nibble
of the header byte), so its length unpacks from an empty slice to 0, and
the runlist [0x11, 0x00, 0x07, 0x00] declares an explicit run length of
0; in both cases the code silently returns a result (the empty address
list) instead of failing with MalformedRunlistError. -/
theorem runlist_zero_length_field_silently_decodes :
    parseRunlist [0x10, 0x05, 0x00] = Except.ok [] ∧
    parseRunlist [0x11, 0x00, 0x07, 0x00] = Except.ok [] := by
  exact ⟨rfl, rfl⟩

/-- C5: the constructor opens the volume with `open(file_name, 'r')`
(text mode, line 15), so the 512-unit boot-sector read is taken from the
newline-translated stream: on `crlfImage`, whose boot sector starts with
the bytes 0x0D 0x0A, the bytes the parser reads differ from the raw
bytes of the image — the open is not unmodified binary access. -/
theorem text_mode_read_translates_bytes :
    readBootSector crlfImage ≠ crlfImage.take 512 := by
  decide

/-- C6: for every 512-byte boot sector, the stored geometry satisfies
bytesPerCluster = bytesPerSector × sectorsPerCluster and mftByteOffset =
mftStartCluster × sectorsPerCluster × bytesPerSector, where the three
quantities are the little-endian unsigned fields at offsets 11 (2 bytes),
13 (1 byte) and 48 (8 bytes); and in particular bytesPerSector = 512,
sectorsPerCluster = 8, mftStartCluster = 786432 give bytesPerCluster =
4096 and mftByteOffset = 3221225472. -/
theorem boot_geometry_fields (boot : List Nat) (_h : boot.length = 512) :
    (parseBootSector boot).bytesPerCluster
      = unpack (pySlice boot 11 13) * unpack (pySlice boot 13 14) ∧
    (parseBootSector boot).mftByteOffset
      = unpack (pySlice boot 48 56) * unpack (pySlice boot 13 14) * unpack (pySlice boot 11 13) ∧
    (unpack (pySlice boot 11 13) = 512 → unpack (pySlice boot 13 14) = 8 →
      unpack (pySlice boot 48 56) = 786432 →
      (parseBootSector boot).bytesPerCluster = 4096 ∧
      (parseBootSector boot).mftByteOffset = 3221225472) := by
  refine ⟨rfl, rfl, ?_⟩
  intro h1 h2 h3
  constructor
  · show unpack (pySlice boot 11 13) * unpack (pySlice boot 13 14) = 4096
    rw [h1, h2]
  · show unpack (pySlice boot 48 56) * unpack (pySlice boot 13 14) * unpack (pySlice boot 11 13)
      = 3221225472
    rw [h1, h2, h3]

/-- C6 witness: the concrete boot sector `exampleBoot` is 512 bytes long
with bytesPerSector = 512, sectorsPerCluster = 8, mftStartCluster =
786432, and the parsed geometry is bytesPerCluster = 4096,
mftByteOffset = 3221225472. -/
theorem boot_geometry_fields_witness :
    (parseBootSector exampleBoot).bytesPerCluster = 4096 ∧
    (parseBootSector exampleBoot).mftByteOffset = 3221225472 :=
  (boot_geometry_fields exampleBoot (by decide)).2.2 (by decide) (by decide) (by decide)

/-- C7: boot-sector parsing performs no validation: the all-zero 512-byte
buffer (bytesPerSector = 0 and sectorsPerCluster = 0) and the empty
buffer (shorter than 512 bytes) both decode, without any FormatError, to
a constructed geometry with bytesPerCluster = 0 and mftByteOffset = 0. -/
theorem boot_parse_accepts_degenerate_geometry :
    parseBootSector (List.replicate 512 0) = ⟨0, 1024, 0⟩ ∧
    parseBootSector [] = ⟨0, 1024, 0⟩ := by
  exact ⟨rfl, rfl⟩

/-- C8: on `shortFixupRecord`, an 8-byte buffer whose header declares 3
fixup entries (so numFixupEntries × 512 = 1536 > 8), `applyFixup` does
not fail with CorruptRecordError: it still produces an output buffer —
its input, unchanged. -/
theorem fixup_apply_short_buffer_no_error :
    applyFixup shortFixupRecord = shortFixupRecord ∧
    shortFixupRecord.length < unpack (pySlice shortFixupRecord 6 8) * 512 := by
  exact ⟨rfl, by decide⟩

/-- C9: `applyFixup` is a pure function of its input byte list (the
embedding takes the buffer as its only argument, and the source reads no
mutable state and leaves its `bytes` argument untouched), and it is
idempotent: applying it twice yields the same output as applying it
once. -/
theorem fixup_apply_idempotent :
    ∀ data : List Nat, applyFixup (applyFixup data) = applyFixup data :=
  fun _ => rfl

/-- C10: runlist decoding is partial: on [0x11, 0x01, 0x00] — one
complete run (header 0x11, length byte 0x01, offset byte 0x00) with the
buffer ending exactly after the run's fields, no terminator — the loop
indexes `runlist[0]` past the end of the buffer and raises an unhandled
IndexError instead of returning a result or a typed
MalformedRunlistError. -/
theorem runlist_missing_terminator_index_error :
    parseRunlist [0x11, 0x01, 0x00] = Except.error PyError.indexError := by
  exact rfl

end Navigator
